import Mathlib

/-!
Shallow embedding of the PlainGdbAdapter state machine from
src/src/plugins/debugger/gdb/plaingdbadapter.cpp.

Each adapter operation is modelled as a pure function taking the current
adapter state (and the inputs the C++ method reads) and returning a
`StepResult`: the state after the call together with all observable effects
(emitted signals, posted gdb commands, debug log lines, whether a QTC_ASSERT
condition failed, whether the output collector was shut down, whether the gdb
process was spawned, whether a signal was sent to the inferior).

QTC_ASSERT(cond, qDebug(...)) logs loudly when the condition fails and then
continues executing; this is modelled by the `assertionFailed` flag of the
result, with the function body proceeding exactly as the C++ code does.

Helpers that live in GdbEngine (code of this repository that is not under
src/) are modelled from the spec and carry a doc comment starting with
`Modelled from the spec:`.
-/

namespace PlainGdbAdapter

/-- Adapter lifecycle states as used by plaingdbadapter.cpp. The spec's short
names map onto these: Starting = EngineStarting/AdapterStarting, Started =
AdapterStarted, the remaining names coincide. -/
inductive AdapterState where
  | EngineStarting
  | AdapterStarting
  | AdapterStarted
  | InferiorPreparing
  | InferiorPrepared
  | InferiorPreparationFailed
  | InferiorStarting
  | InferiorRunningRequested
  | InferiorRunning
  | InferiorStartFailed
  | InferiorStopping
  | InferiorStopped
  | InferiorShuttingDown
  | InferiorShutDown
  | InferiorShutdownFailed
  | AdapterShuttingDown
  | AdapterShutDown
  deriving DecidableEq, Repr

/-- Result classifications of a gdb/MI response (GdbResponse.resultClass). -/
inductive GdbResultClass where
  | GdbResultUnknown
  | GdbResultDone
  | GdbResultRunning
  | GdbResultConnected
  | GdbResultError
  | GdbResultExit
  deriving DecidableEq, Repr

/-- Minimal model of the GdbMi payload tree: the adapter only ever reads
`response.data.findChild("msg").data()`, so children are kept as
name/data pairs. -/
structure GdbMi where
  children : List (String × String)
  deriving DecidableEq, Repr

/-- `m.findChild(name).data()`: the data of the first child with the given
name, or the empty string when there is none (an invalid GdbMi node carries
empty data). -/
def GdbMi.findChildData (m : GdbMi) (n : String) : String :=
  match m.children.find? (fun c => c.1 == n) with
  | some c => c.2
  | none => ""

/-- A parsed gdb/MI response: result classification plus payload tree. -/
structure GdbResponse where
  resultClass : GdbResultClass
  data : GdbMi
  deriving DecidableEq, Repr

/-- The adapter callbacks that can be attached to a posted command (the CB(...)
continuations of plaingdbadapter.cpp). -/
inductive AdapterCallback where
  | cbFileExecAndSymbols
  | cbExecRun
  | cbKill
  | cbExit
  deriving DecidableEq, Repr

/-- Command flags passed to GdbEngine::postCommand; the adapter uses only
NoFlags and RunRequest. -/
inductive CommandFlag where
  | NoFlags
  | RunRequest
  deriving DecidableEq, Repr

/-- A command handed to GdbEngine::postCommand: its text, its flags, and the
optional adapter continuation for its response. -/
structure PostedCommand where
  command : String
  flag : CommandFlag
  callback : Option AdapterCallback
  deriving DecidableEq, Repr

/-- Qt signals emitted by the adapter (the lifecycle notifications of the
spec), with their message payloads. -/
inductive Signal where
  | adapterStartFailed (msg : String) (settingsIdHint : String)
  | adapterStarted
  | adapterCrashed (msg : String)
  | inferiorPrepared
  | inferiorPreparationFailed (msg : String)
  | inferiorStartFailed (msg : String)
  | inferiorShutDown
  | inferiorShutdownFailed (msg : String)
  | adapterShutdownFailed (msg : String)
  | adapterShutDown
  deriving DecidableEq, Repr

/-- Externally supplied start parameters, as read by the adapter. -/
structure StartParameters where
  executable : String
  processArgs : List String
  workingDir : String
  environment : List String
  deriving DecidableEq, Repr

/-- The outcome of one adapter operation: resulting state plus all observable
effects of the call. -/
structure StepResult where
  state : AdapterState
  signals : List Signal := []
  commands : List PostedCommand := []
  debugMessages : List String := []
  assertionFailed : Bool := false
  outputCollectorShutdown : Bool := false
  gdbProcStarted : Bool := false
  interruptSignalSent : Bool := false
  deriving DecidableEq, Repr

/-- The kill command posted by shutdown, with the handleKill continuation. -/
def killCommand : PostedCommand :=
  { command := "kill", flag := CommandFlag.NoFlags,
    callback := some AdapterCallback.cbKill }

/-- The -gdb-exit command posted by shutdown, with the handleExit
continuation. -/
def gdbExitCommand : PostedCommand :=
  { command := "-gdb-exit", flag := CommandFlag.NoFlags,
    callback := some AdapterCallback.cbExit }

/-- The -exec-run command posted by startInferior, tagged RunRequest, with the
handleExecRun continuation. -/
def execRunCommand : PostedCommand :=
  { command := "-exec-run", flag := CommandFlag.RunRequest,
    callback := some AdapterCallback.cbExecRun }

/-- PlainGdbAdapter::startAdapter (plaingdbadapter.cpp:68-91). `listenOk` is
the result of m_outputCollector.listen() and `errorString` its error text;
`gdbProcStarted` records whether m_gdbProc.start was reached. The state is set
to AdapterStarting before the listen attempt. -/
def startAdapter (s : AdapterState) (listenOk : Bool) (errorString : String) :
    StepResult :=
  if !listenOk then
    { state := AdapterState.AdapterStarting,
      signals := [Signal.adapterStartFailed
        ("Cannot set up communication with child process: " ++ errorString) ""],
      debugMessages := ["TRYING TO START ADAPTER"],
      assertionFailed := decide (s ≠ AdapterState.EngineStarting),
      gdbProcStarted := false }
  else
    { state := AdapterState.AdapterStarting,
      debugMessages := ["TRYING TO START ADAPTER"],
      assertionFailed := decide (s ≠ AdapterState.EngineStarting),
      gdbProcStarted := true }

/-- PlainGdbAdapter::handleGdbStarted (plaingdbadapter.cpp:93-98). -/
def handleGdbStarted (s : AdapterState) : StepResult :=
  { state := AdapterState.AdapterStarted,
    signals := [Signal.adapterStarted],
    assertionFailed := decide (s ≠ AdapterState.AdapterStarting) }

/-- PlainGdbAdapter::handleGdbError (plaingdbadapter.cpp:100-104).
`errorMessage` stands for m_engine->errorMessage(error). -/
def handleGdbError (s : AdapterState) (errorMessage : String) : StepResult :=
  { state := s,
    signals := [Signal.adapterCrashed errorMessage],
    debugMessages := ["PLAIN ADAPTER, HANDLE GDB ERROR"] }

/-- PlainGdbAdapter::prepareInferior (plaingdbadapter.cpp:106-116).
`absoluteFilePath` stands for QFileInfo(startParameters().executable)
.absoluteFilePath(), which depends on the filesystem. -/
def prepareInferior (s : AdapterState) (sp : StartParameters)
    (absoluteFilePath : String) : StepResult :=
  { state := AdapterState.InferiorPreparing,
    commands :=
      (if sp.processArgs.isEmpty then [] else
        [{ command := "-exec-arguments " ++ String.intercalate " " sp.processArgs,
           flag := CommandFlag.NoFlags, callback := none }]) ++
      [{ command := "-file-exec-and-symbols \"" ++ absoluteFilePath ++ "\"",
         flag := CommandFlag.NoFlags,
         callback := some AdapterCallback.cbFileExecAndSymbols }],
    assertionFailed := decide (s ≠ AdapterState.AdapterStarted) }

/-- PlainGdbAdapter::handleFileExecAndSymbols (plaingdbadapter.cpp:118-131). -/
def handleFileExecAndSymbols (s : AdapterState) (response : GdbResponse) :
    StepResult :=
  if response.resultClass = GdbResultClass.GdbResultDone then
    { state := AdapterState.InferiorPrepared,
      signals := [Signal.inferiorPrepared],
      assertionFailed := decide (s ≠ AdapterState.InferiorPreparing) }
  else
    { state := AdapterState.InferiorPreparationFailed,
      signals := [Signal.inferiorPreparationFailed
        ("Starting executable failed:\n" ++ response.data.findChildData "msg")],
      assertionFailed := decide (s ≠ AdapterState.InferiorPreparing) }

/-- PlainGdbAdapter::handleExecRun (plaingdbadapter.cpp:133-147). On a Running
result the state is only asserted, not changed, here. -/
def handleExecRun (s : AdapterState) (response : GdbResponse) : StepResult :=
  if response.resultClass = GdbResultClass.GdbResultRunning then
    { state := s,
      debugMessages := ["INFERIOR STARTED"],
      assertionFailed := decide (s ≠ AdapterState.InferiorRunning) }
  else
    { state := AdapterState.InferiorStartFailed,
      signals := [Signal.inferiorStartFailed (response.data.findChildData "msg")],
      assertionFailed := decide (s ≠ AdapterState.InferiorRunningRequested) }

/-- PlainGdbAdapter::startInferior (plaingdbadapter.cpp:149-154). -/
def startInferior (s : AdapterState) : StepResult :=
  { state := AdapterState.InferiorRunningRequested,
    commands := [execRunCommand],
    assertionFailed := decide (s ≠ AdapterState.InferiorStarting) }

/-- PlainGdbAdapter::interruptInferior (plaingdbadapter.cpp:156-167).
`attachedPID` is m_engine->inferiorPid(); `interruptOk` is the result of
interruptProcess(attachedPID) when it is reached. The adapter state is never
read or written by this method. -/
def interruptInferior (s : AdapterState) (attachedPID : Int)
    (interruptOk : Bool) : StepResult :=
  if attachedPID ≤ 0 then
    { state := s,
      debugMessages := ["TRYING TO INTERUPT INFERIOR",
        "TRYING TO INTERRUPT INFERIOR BEFORE PID WAS OBTAINED"],
      interruptSignalSent := false }
  else if !interruptOk then
    { state := s,
      debugMessages := ["TRYING TO INTERUPT INFERIOR",
        "CANNOT INTERRUPT " ++ toString attachedPID],
      interruptSignalSent := true }
  else
    { state := s,
      debugMessages := ["TRYING TO INTERUPT INFERIOR"],
      interruptSignalSent := true }

/-- PlainGdbAdapter::shutdown (plaingdbadapter.cpp:169-211). The output
collector is shut down unconditionally before the state switch. The
InferiorShuttingDown case hits QTC_ASSERT(false) and falls through to the
InferiorShutDown case; the default case hits QTC_ASSERT(false) and leaves the
state untouched. -/
def shutdown (s : AdapterState) : StepResult :=
  match s with
  | AdapterState.InferiorRunningRequested
  | AdapterState.InferiorRunning
  | AdapterState.InferiorStopping
  | AdapterState.InferiorStopped =>
    { state := AdapterState.InferiorShuttingDown,
      commands := [killCommand],
      debugMessages := ["PLAIN ADAPTER SHUTDOWN"],
      outputCollectorShutdown := true }
  | AdapterState.InferiorShuttingDown =>
    { state := AdapterState.AdapterShuttingDown,
      commands := [gdbExitCommand],
      debugMessages := ["PLAIN ADAPTER SHUTDOWN"],
      assertionFailed := true,
      outputCollectorShutdown := true }
  | AdapterState.InferiorShutDown =>
    { state := AdapterState.AdapterShuttingDown,
      commands := [gdbExitCommand],
      debugMessages := ["PLAIN ADAPTER SHUTDOWN"],
      outputCollectorShutdown := true }
  | _ =>
    { state := s,
      debugMessages := ["PLAIN ADAPTER SHUTDOWN"],
      assertionFailed := true,
      outputCollectorShutdown := true }

/-- Modelled from the spec: GdbEngine::msgInferiorStopFailed is engine code of
this repository not under src/; per the spec a protocol-level failure is
"surfaced as a named failure notification carrying the extracted message", so
the wrapper is modelled as a fixed prefix carrying the message verbatim. -/
def msgInferiorStopFailed (why : String) : String :=
  "Inferior process could not be stopped:\n" ++ why

/-- Modelled from the spec: GdbEngine::msgGdbStopFailed is engine code of this
repository not under src/; like msgInferiorStopFailed it is modelled as a
fixed prefix carrying the extracted message verbatim. -/
def msgGdbStopFailed (why : String) : String :=
  "Debugger process could not be stopped:\n" ++ why

/-- PlainGdbAdapter::handleKill (plaingdbadapter.cpp:213-225). The current
state is neither asserted nor read: on a Done result the state is set to
InferiorShutDown, inferiorShutDown is emitted and shutdown() re-invoked (its
effects are merged into the result); otherwise the state becomes
InferiorShutdownFailed. -/
def handleKill (s : AdapterState) (response : GdbResponse) : StepResult :=
  if response.resultClass = GdbResultClass.GdbResultDone then
    let r := shutdown AdapterState.InferiorShutDown
    { state := r.state,
      signals := Signal.inferiorShutDown :: r.signals,
      commands := r.commands,
      debugMessages := "PLAIN ADAPTER HANDLE KILL" :: r.debugMessages,
      assertionFailed := r.assertionFailed,
      outputCollectorShutdown := r.outputCollectorShutdown }
  else
    { state := AdapterState.InferiorShutdownFailed,
      signals := [Signal.inferiorShutdownFailed
        (msgInferiorStopFailed (response.data.findChildData "msg"))],
      debugMessages := ["PLAIN ADAPTER HANDLE KILL"] }

/-- PlainGdbAdapter::handleExit (plaingdbadapter.cpp:227-235). Neither branch
changes the state: on Done nothing happens (the final transition is deferred
to handleGdbFinished), otherwise adapterShutdownFailed is emitted. -/
def handleExit (s : AdapterState) (response : GdbResponse) : StepResult :=
  if response.resultClass = GdbResultClass.GdbResultDone then
    { state := s }
  else
    { state := s,
      signals := [Signal.adapterShutdownFailed
        (msgGdbStopFailed (response.data.findChildData "msg"))] }

/-- PlainGdbAdapter::handleGdbFinished (plaingdbadapter.cpp:237-241): emits
adapterShutDown on the gdb process-exit event, without touching the state
itself. -/
def handleGdbFinished (s : AdapterState) : StepResult :=
  { state := s,
    signals := [Signal.adapterShutDown],
    debugMessages := ["GDB PROCESS FINISHED"] }

/-- Modelled from the spec: the GdbEngine slot consuming the adapterShutDown
notification is engine code of this repository not under src/; per the spec
table row "process exit event | AdapterShuttingDown | AdapterShutDown
(terminal)" the engine moves the state to AdapterShutDown on the process-exit
event. -/
def engineAdapterShutDownEvent (s : AdapterState) : AdapterState :=
  if s = AdapterState.AdapterShuttingDown then AdapterState.AdapterShutDown
  else s

/-- Modelled from the spec: GdbEngine's response dispatch is engine code of
this repository not under src/; per the spec table row "startInferior |
InferiorStarting | InferiorRunning | InferiorStartFailed" the engine sets the
state to InferiorRunning when the RunRequest-tagged -exec-run command gets a
Running result, before the adapter callback runs. -/
def engineStateOnExecRunResponse (s : AdapterState) (response : GdbResponse) :
    AdapterState :=
  if response.resultClass = GdbResultClass.GdbResultRunning then
    AdapterState.InferiorRunning
  else s

/-- One full startInferior round trip: post -exec-run, let the engine process
the result class, then run handleExecRun on the response. -/
def startInferiorRoundTrip (s : AdapterState) (response : GdbResponse) :
    StepResult :=
  let r1 := startInferior s
  handleExecRun (engineStateOnExecRunResponse r1.state response) response

/-- The full shutdown sequence from InferiorRunning: shutdown posts kill;
handleKill processes the kill response (re-invoking shutdown, which posts
-gdb-exit, on success); handleExit processes the exit response; the gdb
process-exit event fires handleGdbFinished and the engine's state transition.
Returns the final state and every command posted along the way. -/
def shutdownFromRunningTrace (killResp exitResp : GdbResponse) :
    AdapterState × List PostedCommand :=
  let r1 := shutdown AdapterState.InferiorRunning
  let r2 := handleKill r1.state killResp
  let r3 := handleExit r2.state exitResp
  let r4 := handleGdbFinished r3.state
  (engineAdapterShutDownEvent r4.state,
   r1.commands ++ r2.commands ++ r3.commands ++ r4.commands)

/-- A Done response with an empty payload, for concrete evaluations. -/
def doneResponse : GdbResponse :=
  { resultClass := GdbResultClass.GdbResultDone, data := { children := [] } }

/-- A Running response with an empty payload, for concrete evaluations. -/
def runningResponse : GdbResponse :=
  { resultClass := GdbResultClass.GdbResultRunning, data := { children := [] } }

/-- An Error response whose msg child is "file not found". -/
def fileNotFoundResponse : GdbResponse :=
  { resultClass := GdbResultClass.GdbResultError,
    data := { children := [("msg", "file not found")] } }

/-- Empty start parameters, for concrete evaluations. -/
def emptyStartParameters : StartParameters :=
  { executable := "", processArgs := [], workingDir := "", environment := [] }

/-- C1: for every invocation of shutdown, from InferiorRunning,
InferiorStopping or InferiorStopped the state becomes InferiorShuttingDown and
the kill command is issued; from InferiorShutDown the state becomes
AdapterShuttingDown and the -gdb-exit command is issued. -/
theorem shutdown_issues_kill_then_exit (s : AdapterState) :
    ((s = AdapterState.InferiorRunning ∨ s = AdapterState.InferiorStopping ∨
        s = AdapterState.InferiorStopped) →
      (shutdown s).state = AdapterState.InferiorShuttingDown ∧
      (shutdown s).commands = [killCommand]) ∧
    (s = AdapterState.InferiorShutDown →
      (shutdown s).state = AdapterState.AdapterShuttingDown ∧
      (shutdown s).commands = [gdbExitCommand]) := by
  constructor
  · rintro (rfl | rfl | rfl) <;> exact ⟨rfl, rfl⟩
  · rintro rfl; exact ⟨rfl, rfl⟩

/-- Witness for C1 at the concrete states InferiorRunning and
InferiorShutDown. -/
theorem shutdown_issues_kill_then_exit_witness :
    ((shutdown AdapterState.InferiorRunning).state =
        AdapterState.InferiorShuttingDown ∧
      (shutdown AdapterState.InferiorRunning).commands = [killCommand]) ∧
    ((shutdown AdapterState.InferiorShutDown).state =
        AdapterState.AdapterShuttingDown ∧
      (shutdown AdapterState.InferiorShutDown).commands = [gdbExitCommand]) :=
  ⟨(shutdown_issues_kill_then_exit AdapterState.InferiorRunning).1 (Or.inl rfl),
   (shutdown_issues_kill_then_exit AdapterState.InferiorShutDown).2 rfl⟩

/-- C2: from InferiorRunning, shutdown followed by a Done kill response (which
re-invokes shutdown and posts -gdb-exit), a Done exit response, and the gdb
process-exit event ends in AdapterShutDown, with exactly the two commands kill
and -gdb-exit posted. -/
theorem shutdown_from_running_two_round_trips (killResp exitResp : GdbResponse)
    (hk : killResp.resultClass = GdbResultClass.GdbResultDone)
    (he : exitResp.resultClass = GdbResultClass.GdbResultDone) :
    shutdownFromRunningTrace killResp exitResp =
      (AdapterState.AdapterShutDown, [killCommand, gdbExitCommand]) := by
  simp [shutdownFromRunningTrace, shutdown, handleKill, handleExit,
    handleGdbFinished, engineAdapterShutDownEvent, hk, he]

/-- Witness for C2 with concrete Done responses for kill and exit. -/
theorem shutdown_from_running_two_round_trips_witness :
    shutdownFromRunningTrace doneResponse doneResponse =
      (AdapterState.AdapterShutDown, [killCommand, gdbExitCommand]) :=
  shutdown_from_running_two_round_trips doneResponse doneResponse rfl rfl

/-- C9: every invocation of shutdown tears down the output collector, whatever
the current state, including failure states and states outside the
operation's precondition. -/
theorem shutdown_tears_down_output_collector (s : AdapterState) :
    (shutdown s).outputCollectorShutdown = true := by
  cases s <;> rfl

/-- C10: handleExit never changes the state, posts no command, emits nothing
on a Done response and emits adapterShutdownFailed with the extracted message
on any other response. -/
theorem handleExit_frame (s : AdapterState) (response : GdbResponse) :
    (handleExit s response).state = s ∧
    (handleExit s response).commands = [] ∧
    (response.resultClass = GdbResultClass.GdbResultDone →
      (handleExit s response).signals = []) ∧
    (response.resultClass ≠ GdbResultClass.GdbResultDone →
      (handleExit s response).signals =
        [Signal.adapterShutdownFailed
          (msgGdbStopFailed (response.data.findChildData "msg"))]) := by
  by_cases h : response.resultClass = GdbResultClass.GdbResultDone <;>
    simp [handleExit, h]

/-- Witness for C10 at AdapterShuttingDown with a Done and with an Error
response. -/
theorem handleExit_frame_witness :
    ((handleExit AdapterState.AdapterShuttingDown doneResponse).state =
        AdapterState.AdapterShuttingDown ∧
      (handleExit AdapterState.AdapterShuttingDown doneResponse).signals = []) ∧
    ((handleExit AdapterState.AdapterShuttingDown fileNotFoundResponse).state =
        AdapterState.AdapterShuttingDown ∧
      (handleExit AdapterState.AdapterShuttingDown fileNotFoundResponse).signals =
        [Signal.adapterShutdownFailed (msgGdbStopFailed "file not found")]) := by
  have h1 := handleExit_frame AdapterState.AdapterShuttingDown doneResponse
  have h2 := handleExit_frame AdapterState.AdapterShuttingDown fileNotFoundResponse
  exact ⟨⟨h1.1, h1.2.2.1 rfl⟩, ⟨h2.1, h2.2.2.2 (by decide)⟩⟩

/-- C3 counterexample: handleKill invoked in AdapterStarted — not its spec
precondition InferiorShuttingDown — raises no assertion and performs the
normal Done transition (emitting inferiorShutDown and re-invoking shutdown),
so a wrong-state invocation of a response handler is silently accepted. -/
theorem handleKill_wrong_state_not_flagged_cex :
    (handleKill AdapterState.AdapterStarted doneResponse).assertionFailed = false ∧
    (handleKill AdapterState.AdapterStarted doneResponse).state =
      AdapterState.AdapterShuttingDown ∧
    (handleKill AdapterState.AdapterStarted doneResponse).signals =
      [Signal.inferiorShutDown] := by
  exact ⟨rfl, rfl, rfl⟩

/-- C3 amended: startAdapter, prepareInferior, startInferior,
handleFileExecAndSymbols and handleExecRun flag exactly the wrong-state
invocations via their assertions; shutdown flags every state outside
InferiorRunningRequested/InferiorRunning/InferiorStopping/InferiorStopped/
InferiorShutDown (so it silently accepts InferiorRunningRequested in addition
to the listed precondition states); handleKill and handleExit perform no
state check and never flag. -/
theorem wrong_state_flagging (s : AdapterState) (response : GdbResponse)
    (sp : StartParameters) (listenOk : Bool) (err path : String) :
    ((startAdapter s listenOk err).assertionFailed = true ↔
      s ≠ AdapterState.EngineStarting) ∧
    ((prepareInferior s sp path).assertionFailed = true ↔
      s ≠ AdapterState.AdapterStarted) ∧
    ((startInferior s).assertionFailed = true ↔
      s ≠ AdapterState.InferiorStarting) ∧
    ((handleFileExecAndSymbols s response).assertionFailed = true ↔
      s ≠ AdapterState.InferiorPreparing) ∧
    ((handleExecRun s response).assertionFailed = true ↔
      (if response.resultClass = GdbResultClass.GdbResultRunning then
        s ≠ AdapterState.InferiorRunning
      else s ≠ AdapterState.InferiorRunningRequested)) ∧
    ((shutdown s).assertionFailed = true ↔
      ¬ (s = AdapterState.InferiorRunningRequested ∨
         s = AdapterState.InferiorRunning ∨
         s = AdapterState.InferiorStopping ∨
         s = AdapterState.InferiorStopped ∨
         s = AdapterState.InferiorShutDown)) ∧
    (handleKill s response).assertionFailed = false ∧
    (handleExit s response).assertionFailed = false := by
  refine ⟨?_, ?_, ?_, ?_, ?_, ?_, ?_, ?_⟩
  · cases listenOk <;> simp [startAdapter]
  · simp [prepareInferior]
  · simp [startInferior]
  · by_cases h : response.resultClass = GdbResultClass.GdbResultDone <;>
      simp [handleFileExecAndSymbols, h]
  · by_cases h : response.resultClass = GdbResultClass.GdbResultRunning <;>
      simp [handleExecRun, h]
  · cases s <;> simp [shutdown]
  · by_cases h : response.resultClass = GdbResultClass.GdbResultDone <;>
      simp [handleKill, shutdown, h]
  · by_cases h : response.resultClass = GdbResultClass.GdbResultDone <;>
      simp [handleExit, h]

/-- Witness for the amended C3 at concrete inputs: a wrong-state startInferior
is flagged while a wrong-state handleKill is not. -/
theorem wrong_state_flagging_witness :
    (startInferior AdapterState.EngineStarting).assertionFailed = true ∧
    (handleKill AdapterState.EngineStarting doneResponse).assertionFailed = false := by
  have h := wrong_state_flagging AdapterState.EngineStarting doneResponse
    emptyStartParameters true "" ""
  exact ⟨h.2.2.1.mpr (by decide), h.2.2.2.2.2.2.1⟩

/-- C4 counterexample: with the output collector unable to listen, startAdapter
from the pre-start state EngineStarting emits the start-failure notification
and spawns no process, but the state has already been moved to
AdapterStarting — it does not remain at its pre-start value. -/
theorem startAdapter_listen_failure_state_changed_cex :
    (startAdapter AdapterState.EngineStarting false "cannot bind").signals =
      [Signal.adapterStartFailed
        "Cannot set up communication with child process: cannot bind" ""] ∧
    (startAdapter AdapterState.EngineStarting false "cannot bind").gdbProcStarted
      = false ∧
    (startAdapter AdapterState.EngineStarting false "cannot bind").state ≠
      AdapterState.EngineStarting := by
  refine ⟨by decide, rfl, by decide⟩

/-- C4 amended: on listen failure startAdapter emits the start-failure
notification and never spawns the gdb process, but the state is
AdapterStarting — set on entry to startAdapter — rather than the pre-start
value EngineStarting. -/
theorem startAdapter_listen_failure (err : String) :
    (startAdapter AdapterState.EngineStarting false err).signals =
      [Signal.adapterStartFailed
        ("Cannot set up communication with child process: " ++ err) ""] ∧
    (startAdapter AdapterState.EngineStarting false err).gdbProcStarted = false ∧
    (startAdapter AdapterState.EngineStarting false err).state =
      AdapterState.AdapterStarting ∧
    (startAdapter AdapterState.EngineStarting false err).assertionFailed = false := by
  exact ⟨rfl, rfl, rfl, by simp [startAdapter]⟩

/-- C5: prepareInferior called in AdapterStarted (the spec's Started) followed
by an Error response whose msg payload is "file not found" ends in
InferiorPreparationFailed, with the notification carrying exactly the message
"Starting executable failed:\nfile not found". -/
theorem prepareInferior_file_not_found (sp : StartParameters) (path : String)
    (response : GdbResponse)
    (hrc : response.resultClass = GdbResultClass.GdbResultError)
    (hmsg : response.data.findChildData "msg" = "file not found") :
    (prepareInferior AdapterState.AdapterStarted sp path).assertionFailed
      = false ∧
    (handleFileExecAndSymbols
        (prepareInferior AdapterState.AdapterStarted sp path).state
        response).state = AdapterState.InferiorPreparationFailed ∧
    (handleFileExecAndSymbols
        (prepareInferior AdapterState.AdapterStarted sp path).state
        response).signals =
      [Signal.inferiorPreparationFailed
        "Starting executable failed:\nfile not found"] := by
  refine ⟨by simp [prepareInferior], ?_, ?_⟩ <;>
    simp [prepareInferior, handleFileExecAndSymbols, hrc, hmsg]

/-- Witness for C5 with a concrete Error response carrying
msg = "file not found". -/
theorem prepareInferior_file_not_found_witness :
    (handleFileExecAndSymbols
        (prepareInferior AdapterState.AdapterStarted emptyStartParameters
          "/bin/app").state
        fileNotFoundResponse).state = AdapterState.InferiorPreparationFailed ∧
    (handleFileExecAndSymbols
        (prepareInferior AdapterState.AdapterStarted emptyStartParameters
          "/bin/app").state
        fileNotFoundResponse).signals =
      [Signal.inferiorPreparationFailed
        "Starting executable failed:\nfile not found"] :=
  (prepareInferior_file_not_found emptyStartParameters "/bin/app"
    fileNotFoundResponse rfl rfl).2

/-- C6: interruptInferior with a non-positive inferior PID is a no-op: the
state is unchanged, no signal is sent to any process, nothing is emitted, no
assertion fires, and the attempt is logged. -/
theorem interruptInferior_no_pid_noop (s : AdapterState) (pid : Int)
    (interruptOk : Bool) (h : pid ≤ 0) :
    interruptInferior s pid interruptOk =
      { state := s,
        debugMessages := ["TRYING TO INTERUPT INFERIOR",
          "TRYING TO INTERRUPT INFERIOR BEFORE PID WAS OBTAINED"] } := by
  unfold interruptInferior
  rw [if_pos h]

/-- Witness for C6 at PID 0. -/
theorem interruptInferior_no_pid_noop_witness :
    interruptInferior AdapterState.InferiorRunning 0 true =
      { state := AdapterState.InferiorRunning,
        debugMessages := ["TRYING TO INTERUPT INFERIOR",
          "TRYING TO INTERRUPT INFERIOR BEFORE PID WAS OBTAINED"] } :=
  interruptInferior_no_pid_noop AdapterState.InferiorRunning 0 true
    (by decide)

/-- C7: when the kill response arrives in InferiorShuttingDown, a Done result
sets the state to InferiorShutDown, emits inferiorShutDown and re-invokes
shutdown from InferiorShutDown (so the result's state, remaining signals and
posted commands are exactly those of that re-invocation); any other result
moves to InferiorShutdownFailed and emits inferiorShutdownFailed carrying the
message extracted from the response payload. -/
theorem handleKill_transitions (s : AdapterState) (response : GdbResponse)
    (hs : s = AdapterState.InferiorShuttingDown) :
    (response.resultClass = GdbResultClass.GdbResultDone →
      (handleKill s response).signals =
        Signal.inferiorShutDown ::
          (shutdown AdapterState.InferiorShutDown).signals ∧
      (handleKill s response).state =
        (shutdown AdapterState.InferiorShutDown).state ∧
      (handleKill s response).commands =
        (shutdown AdapterState.InferiorShutDown).commands) ∧
    (response.resultClass ≠ GdbResultClass.GdbResultDone →
      (handleKill s response).state = AdapterState.InferiorShutdownFailed ∧
      (handleKill s response).signals =
        [Signal.inferiorShutdownFailed
          (msgInferiorStopFailed (response.data.findChildData "msg"))]) := by
  constructor
  · intro h
    simp [handleKill, h]
  · intro h
    simp [handleKill, h]

/-- Witness for C7 in InferiorShuttingDown with a concrete Done response and a
concrete Error response. -/
theorem handleKill_transitions_witness :
    ((handleKill AdapterState.InferiorShuttingDown doneResponse).state =
        (shutdown AdapterState.InferiorShutDown).state ∧
      (handleKill AdapterState.InferiorShuttingDown doneResponse).commands =
        (shutdown AdapterState.InferiorShutDown).commands) ∧
    ((handleKill AdapterState.InferiorShuttingDown fileNotFoundResponse).state =
        AdapterState.InferiorShutdownFailed ∧
      (handleKill AdapterState.InferiorShuttingDown fileNotFoundResponse).signals =
        [Signal.inferiorShutdownFailed (msgInferiorStopFailed "file not found")]) := by
  have h1 := (handleKill_transitions AdapterState.InferiorShuttingDown
    doneResponse rfl).1 rfl
  have h2 := (handleKill_transitions AdapterState.InferiorShuttingDown
    fileNotFoundResponse rfl).2 (by decide)
  exact ⟨⟨h1.2.1, h1.2.2⟩, h2⟩

/-- C8: startInferior in its precondition state InferiorStarting fires no
assertion, moves to InferiorRunningRequested and posts -exec-run; a Running
response then leaves the round trip in InferiorRunning without any assertion,
while a non-Running response ends in InferiorStartFailed with
inferiorStartFailed carrying the response's message. -/
theorem startInferior_outcomes (s : AdapterState) (response : GdbResponse)
    (hs : s = AdapterState.InferiorStarting) :
    (startInferior s).assertionFailed = false ∧
    (startInferior s).state = AdapterState.InferiorRunningRequested ∧
    (startInferior s).commands = [execRunCommand] ∧
    (response.resultClass = GdbResultClass.GdbResultRunning →
      (startInferiorRoundTrip s response).state = AdapterState.InferiorRunning ∧
      (startInferiorRoundTrip s response).assertionFailed = false) ∧
    (response.resultClass ≠ GdbResultClass.GdbResultRunning →
      (startInferiorRoundTrip s response).state =
        AdapterState.InferiorStartFailed ∧
      (startInferiorRoundTrip s response).assertionFailed = false ∧
      (startInferiorRoundTrip s response).signals =
        [Signal.inferiorStartFailed (response.data.findChildData "msg")]) := by
  subst hs
  refine ⟨by simp [startInferior], rfl, rfl, ?_, ?_⟩
  · intro h
    simp [startInferiorRoundTrip, startInferior, engineStateOnExecRunResponse,
      handleExecRun, h]
  · intro h
    simp [startInferiorRoundTrip, startInferior, engineStateOnExecRunResponse,
      handleExecRun, h]

/-- Witness for C8 in InferiorStarting with a concrete Running response and a
concrete Error response. -/
theorem startInferior_outcomes_witness :
    (startInferiorRoundTrip AdapterState.InferiorStarting runningResponse).state
      = AdapterState.InferiorRunning ∧
    (startInferiorRoundTrip AdapterState.InferiorStarting
        fileNotFoundResponse).state = AdapterState.InferiorStartFailed ∧
    (startInferiorRoundTrip AdapterState.InferiorStarting
        fileNotFoundResponse).signals =
      [Signal.inferiorStartFailed "file not found"] := by
  have h1 := ((startInferior_outcomes AdapterState.InferiorStarting
    runningResponse rfl).2.2.2.1) rfl
  have h2 := ((startInferior_outcomes AdapterState.InferiorStarting
    fileNotFoundResponse rfl).2.2.2.2) (by decide)
  exact ⟨h1.1, h2.1, h2.2.2⟩

end PlainGdbAdapter
